import Mathlib

/-!
Shallow embedding of the StargateProject2021 hardware-abstraction layer:
`src/classes/StargateMilkyWay/electronics_mainboard_1v1.py` (class
`ElectronicsMainBoard1V1`) and the logical chevron table `src/chevrons.py`.

Python integers are modelled as `Nat`/`Int`; the float arithmetic of the
voltage calibration is modelled over `ℚ` (the divergences proved about it
are structural, not rounding-level).  Stateful code is modelled by explicit
state passing: the SPI device carries a transfer log, and the board state
carries a chronological log of PWM duty-cycle writes, so that "performs no
bus transaction" and "the enable write happens exactly once" are statable.
-/

namespace Stargate

/-- Error outcomes of the board operations.  `valueError` models the Python
`ValueError` raised by `get_adc_by_channel` for a bad channel;
`configurationError` models a failed remap lookup in the board config;
`keyError` models a Python `KeyError` on a missing dict key. -/
inductive BoardError where
  | valueError
  | configurationError
  | keyError
deriving DecidableEq, Repr

/-! ## Analog sampler (SPI / MCP3002) -/

/-- Model of the `spidev` SPI device: the two reply bytes the ADC chip will
answer with, plus a chronological log of every frame transmitted with
`xfer2` (so "no bus transaction" is statable). -/
structure SpiDev where
  reply0 : Nat
  reply1 : Nat
  xferLog : List (List Nat)
deriving DecidableEq, Repr

/-- `spi.xfer2(msg)`: full-duplex exchange; returns the two reply bytes and
records the transmitted frame. -/
def SpiDev.xfer2 (spi : SpiDev) (msg : List Nat) : List Nat × SpiDev :=
  ([spi.reply0, spi.reply1], { spi with xferLog := spi.xferLog ++ [msg] })

/-- Python `a << k` on a (possibly negative) int: multiplication by `2 ^ k`. -/
def pyShiftLeft (a : Int) (k : Nat) : Int :=
  a * 2 ^ k

/-- `ElectronicsMainBoard1V1.get_adc_by_channel` (lines 171-192).
Validates `adc_ch in [0,1]` (else `raise ValueError`, no transfer), builds
the frame `[((0b11 << 1) + adc_ch) << 5, 0b00000000]`, exchanges it, folds
the two reply bytes into one integer with `(acc << 8) + byte`, and shifts
right by one to drop the last bit. -/
def get_adc_by_channel (spi : SpiDev) (adc_ch : Int) :
    Except BoardError Nat × SpiDev :=
  if adc_ch = 0 ∨ adc_ch = 1 then
    let msg0 : Int := 0b11
    let msg1 : Int := pyShiftLeft (pyShiftLeft msg0 1 + adc_ch) 5
    let msg : List Nat := [msg1.toNat, 0b00000000]
    let rs := spi.xfer2 msg
    let adc_value : Nat := rs.1.foldl (fun acc byte => (acc <<< 8) + byte) 0
    let adc_value := adc_value >>> 1
    (.ok adc_value, rs.2)
  else
    (.error .valueError, spi)

/-- `self.adc_resolution = 10` (the MCP3002 is a 10-bit ADC). -/
def adc_resolution : Nat := 10

/-- `self.adc_vref = 3.3`, modelled as the rational 33/10. -/
def adc_vref : ℚ := 33 / 10

/-- `ElectronicsMainBoard1V1.adc_to_voltage` (lines 194-196), exactly as the
source computes it: `(self.adc_vref * adc_value) / (2^self.adc_resolution)-1`.
In Python `^` is bitwise XOR (so the denominator is `2 XOR 10 = 8`, not
`1024`), and the trailing `-1` applies to the quotient. -/
def adc_to_voltage (adc_value : Nat) : ℚ :=
  (adc_vref * adc_value) / (Nat.xor 2 adc_resolution : ℚ) - 1

/-- The calibration formula as the spec states it:
`voltage = Vref * raw / (2^resolution)` with exponentiation.  Kept separate
so the divergence from `adc_to_voltage` can be proved. -/
def adc_to_voltage_specFormula (adc_value : Nat) : ℚ :=
  adc_vref * adc_value / 2 ^ adc_resolution

/-- `ElectronicsMainBoard1V1.get_homing_sensor_voltage` (lines 204-205):
sample channel 0 and calibrate. -/
def get_homing_sensor_voltage (spi : SpiDev) : Except BoardError ℚ × SpiDev :=
  match get_adc_by_channel spi 0 with
  | (.ok v, spi') => (.ok (adc_to_voltage v), spi')
  | (.error e, spi') => (.error e, spi')

/-! ## Board state: PWM chips, motors, stepper, LED channels -/

/-- A duty-cycle write to one channel of one PCA9685 chip:
`controller.channels[chan].duty_cycle = value`.  The chip is identified as
`1` (`self._pca_1`, address 0x66) or `2` (`self._pca_2`, address 0x6f). -/
structure DutyWrite where
  chip : Nat
  chan : Nat
  value : Nat
deriving DecidableEq, Repr

/-- A DC-motor handle: either a real `adafruit_motor.motor.DCMotor` bound to
the chip's (IN+, IN−) channels, or a `DCMotorSim` stand-in.  `objId` is a
fresh allocation number modelling Python object identity. -/
inductive MotorHandle where
  | real (objId : Nat) (chip : Nat) (inPos : Nat) (inNeg : Nat)
  | sim (objId : Nat)
deriving DecidableEq, Repr

/-- A stepper handle: a real `adafruit_motor.stepper.StepperMotor` or a
`StepperSim` stand-in; `objId` models Python object identity. -/
inductive StepperHandle where
  | real (objId : Nat)
  | sim (objId : Nat)
deriving DecidableEq, Repr

/-- A `gpiozero.LED` object, identified by its GPIO pin. -/
structure LedHandle where
  pin : Nat
deriving DecidableEq, Repr

/-- The mutable state of an `ElectronicsMainBoard1V1` instance.  Config flags
and the board-specific remap file (`hw_milkyway_mainboard1v1`) are read-only
inputs held in the state; `dutyLog` is the chronological list of PWM
duty-cycle writes performed so far; `nextObjId` is the allocation counter for
object identity; `motorAttrs` models the `_motorN` attributes written by
`setattr` in `_motor`. -/
structure BoardState where
  chevron_motors_enable : Bool
  stepper_motor_enable : Bool
  board_cfg : List (String × Int)
  nextObjId : Nat
  dutyLog : List DutyWrite
  motorAttrs : List (String × MotorHandle)
  motor_channels : List (Int × MotorHandle)
  led_channels : List (Int × LedHandle)
  stepper1 : Option StepperHandle
deriving Repr

/-- Modelled from the spec: `StargateConfig` (the configuration-file loader,
`stargate_config.py`) is not under `src/`; per §4.4/§7 a lookup whose key has
no remap entry fails with a ConfigurationError, otherwise it yields the
configured integer value. -/
def StargateConfig.get (cfg : List (String × Int)) (key : String) :
    Except BoardError Int :=
  match cfg.lookup key with
  | some v => .ok v
  | none => .error .configurationError

/-- Modelled from the spec: `DCMotorSim` (`hardware_simulation.py`) is not
under `src/`; per §6 it is a drop-in stand-in whose construction touches no
physical channel.  Only a fresh object identity is allocated. -/
def DCMotorSim.new (s : BoardState) : MotorHandle × BoardState :=
  (MotorHandle.sim s.nextObjId, { s with nextObjId := s.nextObjId + 1 })

/-- Modelled from the spec: `StepperSim` (`hardware_simulation.py`) is not
under `src/`; per §6 it is a drop-in stand-in whose construction touches no
physical channel. -/
def StepperSim.new (s : BoardState) : StepperHandle × BoardState :=
  (StepperHandle.sim s.nextObjId, { s with nextObjId := s.nextObjId + 1 })

/-- Modelled from the spec: an operation on a `StepperSim` handle
(`hardware_simulation.py`, not under `src/`) has, per §6, "no physical
effect": it leaves the whole board state (in particular `dutyLog`)
unchanged. -/
def StepperSim.onestep (s : BoardState) : BoardState := s

/-- `ElectronicsMainBoard1V1._motor` (lines 216-230): set the enable channel
`channels[0]` of `controller` to duty cycle 0xFFFF, construct a DCMotor on
`(channels[1], channels[2])`, store it via `setattr self ("_motor"+str(motor_name))`
and return it via `getattr`.  (Note the source passes `motor_name = 4` for
motors 5, 6 and 7, so they all overwrite the `_motor4` attribute; the handle
is still returned fresh because `getattr` immediately follows `setattr`.) -/
def ElectronicsMainBoard1V1._motor (s : BoardState) (controller : Nat)
    (motor_name : Nat) (channels : Nat × Nat × Nat) :
    MotorHandle × BoardState :=
  let attr := "_motor" ++ toString motor_name
  let s := { s with dutyLog :=
    s.dutyLog ++ ([⟨controller, channels.1, 0xFFFF⟩] : List DutyWrite) }
  let m := MotorHandle.real s.nextObjId controller channels.2.1 channels.2.2
  let s := { s with nextObjId := s.nextObjId + 1,
                    motorAttrs := (attr, m) :: s.motorAttrs }
  ((s.motorAttrs.lookup attr).getD m, s)

namespace ElectronicsMainBoard1V1

/-- `motor1` property: `self._motor(self._pca_2, 1, (9, 11, 10))`
(tuple is `[PWM, IN_POS, IN_NEG]`). -/
def motor1 (s : BoardState) : MotorHandle × BoardState := _motor s 2 1 (9, 11, 10)

/-- `motor2` property: `self._motor(self._pca_2, 2, (6, 8, 7))`. -/
def motor2 (s : BoardState) : MotorHandle × BoardState := _motor s 2 2 (6, 8, 7)

/-- `motor3` property: `self._motor(self._pca_2, 3, (3, 5, 4))`. -/
def motor3 (s : BoardState) : MotorHandle × BoardState := _motor s 2 3 (3, 5, 4)

/-- `motor4` property: `self._motor(self._pca_2, 4, (0, 2, 1))`. -/
def motor4 (s : BoardState) : MotorHandle × BoardState := _motor s 2 4 (0, 2, 1)

/-- `motor5` property: `self._motor(self._pca_1, 4, (12, 14, 13))`. -/
def motor5 (s : BoardState) : MotorHandle × BoardState := _motor s 1 4 (12, 14, 13)

/-- `motor6` property: `self._motor(self._pca_1, 4, (5, 3, 4))`. -/
def motor6 (s : BoardState) : MotorHandle × BoardState := _motor s 1 4 (5, 3, 4)

/-- `motor7` property: `self._motor(self._pca_1, 4, (0, 2, 1))`. -/
def motor7 (s : BoardState) : MotorHandle × BoardState := _motor s 1 4 (0, 2, 1)

/-- The `stepper` property (lines 260-272): if `self.stepper1` is falsy
(None), force the two H-bridge enable channels PWMA (chip 1 channel 6) and
PWMB (chip 1 channel 11) to 0xFFFF, build the StepperMotor on channels
8/7/9/10 and cache it in `self.stepper1`; then return `self.stepper1`. -/
def stepper (s : BoardState) : StepperHandle × BoardState :=
  match s.stepper1 with
  | some h => (h, s)
  | none =>
      let s := { s with dutyLog :=
        s.dutyLog ++ ([⟨1, 6, 0xFFFF⟩, ⟨1, 11, 0xFFFF⟩] : List DutyWrite) }
      let h := StepperHandle.real s.nextObjId
      (h, { s with nextObjId := s.nextObjId + 1, stepper1 := some h })

/-- `init_motor_hardware` (lines 80-119).  PCA9685 construction and the
frequency assignments perform no duty-cycle channel writes, so they leave the
model state unchanged.  When `chevron_motors_enable` the dict
`{1: self.motor1, ..., 7: self.motor7}` is built, which evaluates each motor
property once, in order; otherwise seven `DCMotorSim()` objects are built.
Then `self.stepper1` is set from the `stepper` property or a `StepperSim()`. -/
def init_motor_hardware (s : BoardState) : BoardState :=
  let s :=
    if s.chevron_motors_enable then
      let p1 := motor1 s
      let p2 := motor2 p1.2
      let p3 := motor3 p2.2
      let p4 := motor4 p3.2
      let p5 := motor5 p4.2
      let p6 := motor6 p5.2
      let p7 := motor7 p6.2
      { p7.2 with motor_channels :=
          [(1, p1.1), (2, p2.1), (3, p3.1), (4, p4.1),
           (5, p5.1), (6, p6.1), (7, p7.1)] }
    else
      let p1 := DCMotorSim.new s
      let p2 := DCMotorSim.new p1.2
      let p3 := DCMotorSim.new p2.2
      let p4 := DCMotorSim.new p3.2
      let p5 := DCMotorSim.new p4.2
      let p6 := DCMotorSim.new p5.2
      let p7 := DCMotorSim.new p6.2
      { p7.2 with motor_channels :=
          [(1, p1.1), (2, p2.1), (3, p3.1), (4, p4.1),
           (5, p5.1), (6, p6.1), (7, p7.1)] }
  if s.stepper_motor_enable then
    let p := stepper s
    { p.2 with stepper1 := some p.1 }
  else
    let p := StepperSim.new s
    { p.2 with stepper1 := some p.1 }

/-- `init_led_gpio` (lines 121-136): the fixed LED channel table
`{1: LED(22), 2: LED(25), 3: LED(5), 4: LED(19), 5: LED(26), 6: LED(21),
7: LED(20)}`. -/
def init_led_gpio (s : BoardState) : BoardState :=
  { s with led_channels :=
      ([(1, ⟨22⟩), (2, ⟨25⟩), (3, ⟨5⟩), (4, ⟨19⟩),
        (5, ⟨26⟩), (6, ⟨21⟩), (7, ⟨20⟩)] : List (Int × LedHandle)) }

/-- `__init__` (lines 19-78), restricted to the state the claims concern:
store the two enable flags and the board config, then run
`init_motor_hardware` and `init_led_gpio`.  (Neopixel and SPI setup write no
PWM duty cycles and keep no state modelled here.) -/
def new (cme se : Bool) (bcfg : List (String × Int)) : BoardState :=
  let s : BoardState :=
    { chevron_motors_enable := cme
      stepper_motor_enable := se
      board_cfg := bcfg
      nextObjId := 0
      dutyLog := []
      motorAttrs := []
      motor_channels := []
      led_channels := []
      stepper1 := none }
  init_led_gpio (init_motor_hardware s)

/-- `get_chevron_led` (lines 138-140): resolve
`chevron_{n}_led_channel` through the board config, then index the
`led_channels` dict (a missing dict key is a Python `KeyError`). -/
def get_chevron_led (s : BoardState) (chevron_number : Nat) :
    Except BoardError LedHandle × BoardState :=
  match StargateConfig.get s.board_cfg
      ("chevron_" ++ toString chevron_number ++ "_led_channel") with
  | .error e => (.error e, s)
  | .ok channel =>
      match s.led_channels.lookup channel with
      | none => (.error .keyError, s)
      | some led => (.ok led, s)

/-- `get_chevron_motor` (lines 142-144): resolve
`chevron_{n}_motor_channel` through the board config, then index the
`motor_channels` dict. -/
def get_chevron_motor (s : BoardState) (chevron_number : Nat) :
    Except BoardError MotorHandle × BoardState :=
  match StargateConfig.get s.board_cfg
      ("chevron_" ++ toString chevron_number ++ "_motor_channel") with
  | .error e => (.error e, s)
  | .ok channel =>
      match s.motor_channels.lookup channel with
      | none => (.error .keyError, s)
      | some m => (.ok m, s)

/-- `get_stepper` (lines 146-147): `return self.stepper` (the property). -/
def get_stepper (s : BoardState) : StepperHandle × BoardState :=
  stepper s

end ElectronicsMainBoard1V1

/-- The number of writes in a duty-cycle log that target channel `chan` of
chip `chip`. -/
def countWrites (log : List DutyWrite) (chip chan : Nat) : Nat :=
  (log.filter (fun w => w.chip == chip && w.chan == chan)).length

/-- The (chip, enable-channel) pair that `_motor` drives to 0xFFFF for the
motor registered under key `c` of `motor_channels`, read off the `motorN`
properties: channel 1 → (pca 2, 9), 2 → (2, 6), 3 → (2, 3), 4 → (2, 0),
5 → (1, 12), 6 → (1, 5), 7 → (1, 0). -/
def enableTarget : Int → Nat × Nat
  | 1 => (2, 9)
  | 2 => (2, 6)
  | 3 => (2, 3)
  | 4 => (2, 0)
  | 5 => (1, 12)
  | 6 => (1, 5)
  | 7 => (1, 0)
  | _ => (0, 0)

/-! ## Stepper drive modes -/

namespace stp

/-- `adafruit_motor.stepper.SINGLE` (external library constant, value 1). -/
def SINGLE : Nat := 1

/-- `adafruit_motor.stepper.DOUBLE` (external library constant, value 2). -/
def DOUBLE : Nat := 2

/-- `adafruit_motor.stepper.INTERLEAVE` (external library constant, value 3). -/
def INTERLEAVE : Nat := 3

/-- `adafruit_motor.stepper.MICROSTEP` (external library constant, value 4). -/
def MICROSTEP : Nat := 4

/-- `adafruit_motor.stepper.FORWARD` (external library constant, value 1). -/
def FORWARD : Nat := 1

/-- `adafruit_motor.stepper.BACKWARD` (external library constant, value 2). -/
def BACKWARD : Nat := 2

end stp

/-- `self.drive_modes` (lines 65-70): the fixed name → driver-constant
table. -/
def drive_modes : List (String × Nat) :=
  [("double", stp.DOUBLE), ("single", stp.SINGLE),
   ("interleave", stp.INTERLEAVE), ("microstep", stp.MICROSTEP)]

/-- `ElectronicsMainBoard1V1.get_stepper_drive_mode` (lines 157-162):
`self.drive_modes[drive_mode]`, falling back to `self.drive_modes['double']`
on `KeyError`. -/
def get_stepper_drive_mode (drive_mode : String) : Nat :=
  match drive_modes.lookup drive_mode with
  | some v => v
  | none => (drive_modes.lookup "double").getD 0

/-! ## Logical chevron table (`src/chevrons.py`) -/

/-- `classes.CHEVRON.Chevron(led_gpio, motor_number)`: per the comment in
`src/chevrons.py`, "the first number in the parenthesis is the gpio led
number and the second value is the motor number"; the LED number is `None`
for chevrons 8 and 9. -/
structure Chevron where
  led_gpio : Option Nat
  motor_number : Nat
deriving DecidableEq, Repr

/-- The `chevrons` dict of `src/chevrons.py` (lines 9-17). -/
def chevrons : List (Nat × Chevron) :=
  [(1, ⟨some 21, 3⟩), (2, ⟨some 16, 4⟩), (3, ⟨some 20, 5⟩),
   (4, ⟨some 26, 6⟩), (5, ⟨some 6, 7⟩), (6, ⟨some 13, 8⟩),
   (7, ⟨some 19, 9⟩), (8, ⟨none, 10⟩), (9, ⟨none, 11⟩)]

end Stargate

/-! ## Helper lemmas -/

namespace Stargate

/-- `get_chevron_motor` never mutates the board state: it is a pair of
dictionary lookups. -/
theorem get_chevron_motor_state (s : BoardState) (n : Nat) :
    (ElectronicsMainBoard1V1.get_chevron_motor s n).2 = s := by
  unfold ElectronicsMainBoard1V1.get_chevron_motor
  cases StargateConfig.get s.board_cfg ("chevron_" ++ toString n ++ "_motor_channel") with
  | error e => rfl
  | ok channel =>
      cases h : s.motor_channels.lookup channel with
      | none => simp [h]
      | some m => simp [h]

/-- `get_chevron_led` never mutates the board state. -/
theorem get_chevron_led_state (s : BoardState) (n : Nat) :
    (ElectronicsMainBoard1V1.get_chevron_led s n).2 = s := by
  unfold ElectronicsMainBoard1V1.get_chevron_led
  cases StargateConfig.get s.board_cfg ("chevron_" ++ toString n ++ "_led_channel") with
  | error e => rfl
  | ok channel =>
      cases h : s.led_channels.lookup channel with
      | none => simp [h]
      | some m => simp [h]

/-- An association-list lookup for a key that is not among the keys fails. -/
theorem lookup_eq_none_of_not_mem {α : Type} (c : Int) (l : List (Int × α))
    (h : c ∉ l.map Prod.fst) : l.lookup c = none := by
  induction l with
  | nil => rfl
  | cons p t ih =>
      obtain ⟨k, v⟩ := p
      simp only [List.map, List.mem_cons, not_or] at h
      have hk : (c == k) = false := beq_eq_false_iff_ne.mpr h.1
      simp [List.lookup, hk, ih h.2]

end Stargate

/-! ## Claims -/

namespace Stargate

/-- C1: the claim states that `get_homing_sensor_voltage` /
`adc_to_voltage` compute `Vref * raw / 2^resolution ∈ [0, Vref]`.  The code
is a slip (the spec itself flags the operator-precedence defect): Python
`2^self.adc_resolution` is bitwise XOR (= 8) and the trailing `-1` applies
to the whole quotient, so `adc_to_voltage r = Vref * r / 8 - 1`.  At the
failing input raw = 0 (SPI reply bytes (0,0)) the code yields −1, while the
claimed formula yields 0; −1 is outside [0, Vref]. -/
theorem C1_voltage_formula_defect :
    (get_homing_sensor_voltage ⟨0, 0, []⟩).1 = .ok (adc_to_voltage 0)
    ∧ adc_to_voltage 0 = -1
    ∧ adc_to_voltage 0 < 0
    ∧ adc_to_voltage_specFormula 0 = 0
    ∧ ∀ r : Nat, adc_to_voltage r = adc_vref * r / 8 - 1 := by
  refine ⟨rfl, ?_, ?_, ?_, ?_⟩
  · norm_num [adc_to_voltage, adc_vref, adc_resolution]
  · norm_num [adc_to_voltage, adc_vref, adc_resolution]
  · norm_num [adc_to_voltage_specFormula, adc_vref, adc_resolution]
  · intro r
    have h8 : Nat.xor 2 adc_resolution = 8 := rfl
    simp only [adc_to_voltage, h8]
    norm_num

/-- C2 counterexample: for the fixture reply bytes
`[0b01100000, 0b00000000]` the decode of `get_adc_by_channel` yields
12288 = `0b0110000000000000 >> 1`, whereas the claim's stated value
`0b0110000000 >> 1` is 192, a strictly smaller number. -/
theorem C2_counterexample :
    (get_adc_by_channel ⟨0b01100000, 0b00000000, []⟩ 0).1 = .ok 12288
    ∧ (0b0110000000 >>> 1 : Nat) = 192
    ∧ (192 : Nat) < 12288 :=
  ⟨rfl, rfl, by norm_num⟩

/-- C2 (amended): for the fixture reply bytes `[0b01100000, 0b00000000]`,
the decode step (concatenate the two response bytes into one 16-bit integer,
then discard the least-significant bit) yields
`0b0110000000000000 >> 1 = 12288`. -/
theorem C2_decode_fixture :
    (get_adc_by_channel ⟨0b01100000, 0b00000000, []⟩ 0).1
      = .ok (0b0110000000000000 >>> 1) := rfl

/-- C3 counterexample: the all-ones reply `[255, 255]` decodes to 32767,
which exceeds the claimed bound `2^resolution − 1 = 1023`. -/
theorem C3_counterexample :
    (get_adc_by_channel ⟨255, 255, []⟩ 0).1 = .ok 32767
    ∧ 2 ^ adc_resolution - 1 < 32767 :=
  ⟨rfl, by norm_num [adc_resolution]⟩

/-- C3 (amended): for every two-byte reply the decoded raw value is
`((b0 << 8) + b1) >> 1`, which lies in `[0, 2^15 − 1]`; it lies in
`[0, 2^resolution − 1]` when the first reply byte is at most 7 (its five
most significant bits clear), as the MCP3002 framing guarantees on real
hardware. -/
theorem C3_raw_range (b0 b1 : Nat) (log : List (List Nat))
    (h0 : b0 ≤ 255) (h1 : b1 ≤ 255) :
    (get_adc_by_channel ⟨b0, b1, log⟩ 0).1 = .ok (((b0 <<< 8) + b1) >>> 1)
    ∧ ((b0 <<< 8) + b1) >>> 1 ≤ 2 ^ 15 - 1
    ∧ (b0 ≤ 7 → ((b0 <<< 8) + b1) >>> 1 ≤ 2 ^ adc_resolution - 1) := by
  have hs : (b0 <<< 8) + b1 = b0 * 256 + b1 := by
    rw [Nat.shiftLeft_eq]
  have hr : ((b0 <<< 8) + b1) >>> 1 = (b0 * 256 + b1) / 2 := by
    rw [hs, Nat.shiftRight_eq_div_pow]
  refine ⟨?_, ?_, ?_⟩
  · simp [get_adc_by_channel, SpiDev.xfer2]
  · rw [hr]; omega
  · intro hb; rw [hr]; simp only [adc_resolution]; omega

/-- C3 witness: the amended range theorem at the concrete reply (7, 255). -/
theorem C3_raw_range_witness :
    ((7 : Nat) ≤ 255 ∧ (255 : Nat) ≤ 255)
    ∧ ((get_adc_by_channel ⟨7, 255, []⟩ 0).1 = .ok (((7 <<< 8) + 255) >>> 1)
      ∧ ((7 <<< 8) + 255) >>> 1 ≤ 2 ^ 15 - 1
      ∧ ((7 : Nat) ≤ 7 → ((7 <<< 8) + 255) >>> 1 ≤ 2 ^ adc_resolution - 1)) :=
  ⟨⟨by norm_num, by norm_num⟩, C3_raw_range 7 255 [] (by norm_num) (by norm_num)⟩

/-- C5: for a channel argument outside {0, 1} the sampler raises
(`ValueError`) and performs no bus transaction: the result is an error and
the SPI device — in particular its transfer log — is returned unchanged. -/
theorem C5_invalid_channel (spi : SpiDev) (adc_ch : Int)
    (h0 : adc_ch ≠ 0) (h1 : adc_ch ≠ 1) :
    (get_adc_by_channel spi adc_ch).1 = .error .valueError
    ∧ (get_adc_by_channel spi adc_ch).2 = spi
    ∧ (get_adc_by_channel spi adc_ch).2.xferLog = spi.xferLog := by
  refine ⟨?_, ?_, ?_⟩ <;> simp [get_adc_by_channel, h0, h1]

/-- C5 witness: the invalid-channel theorem at channel 2 on a fresh SPI
device with an empty transfer log. -/
theorem C5_invalid_channel_witness :
    (get_adc_by_channel ⟨0, 0, []⟩ 2).1 = .error .valueError
    ∧ (get_adc_by_channel ⟨0, 0, []⟩ 2).2 = (⟨0, 0, []⟩ : SpiDev)
    ∧ (get_adc_by_channel ⟨0, 0, []⟩ 2).2.xferLog = (⟨0, 0, []⟩ : SpiDev).xferLog :=
  C5_invalid_channel ⟨0, 0, []⟩ 2 (by decide) (by decide)

/-- C6: the drive-mode table maps "double", "single", "interleave",
"microstep" to the four pairwise-distinct driver constants, and
`get_stepper_drive_mode` returns the "double" constant for every name not
in the table instead of raising. -/
theorem C6_drive_modes :
    (get_stepper_drive_mode "double" = stp.DOUBLE
      ∧ get_stepper_drive_mode "single" = stp.SINGLE
      ∧ get_stepper_drive_mode "interleave" = stp.INTERLEAVE
      ∧ get_stepper_drive_mode "microstep" = stp.MICROSTEP)
    ∧ List.Nodup [stp.DOUBLE, stp.SINGLE, stp.INTERLEAVE, stp.MICROSTEP]
    ∧ ∀ name : String, name ∉ ["double", "single", "interleave", "microstep"] →
        get_stepper_drive_mode name = get_stepper_drive_mode "double" := by
  refine ⟨⟨rfl, rfl, rfl, rfl⟩, by decide, ?_⟩
  intro name h
  simp only [List.mem_cons, List.not_mem_nil, or_false, not_or] at h
  obtain ⟨hd, hs, hi, hm⟩ := h
  have k1 : (name == "double") = false := beq_eq_false_iff_ne.mpr hd
  have k2 : (name == "single") = false := beq_eq_false_iff_ne.mpr hs
  have k3 : (name == "interleave") = false := beq_eq_false_iff_ne.mpr hi
  have k4 : (name == "microstep") = false := beq_eq_false_iff_ne.mpr hm
  simp [get_stepper_drive_mode, drive_modes, List.lookup, k1, k2, k3, k4]

/-- C6 witness: the fallback clause of the drive-mode theorem at the
concrete unknown name "bogus". -/
theorem C6_drive_modes_witness :
    get_stepper_drive_mode "bogus" = get_stepper_drive_mode "double" :=
  C6_drive_modes.2.2 "bogus" (by decide)

/-- C4: for a chevron `n` whose remap entry resolves to a registered motor
channel `c`, `get_chevron_motor` leaves the board state unchanged, a second
call returns the same handle object, and the enable-channel duty-cycle
write for that motor appears exactly once in the whole process-lifetime
write log (it was performed when `init_motor_hardware` built the
`motor_channels` table, and lookups never repeat it). -/
theorem C4_motor_idempotent (bcfg : List (String × Int)) (se : Bool) (n : Nat) (c : Int)
    (hcfg : StargateConfig.get bcfg ("chevron_" ++ toString n ++ "_motor_channel") = .ok c)
    (hc : ((ElectronicsMainBoard1V1.new true se bcfg).motor_channels.lookup c).isSome = true) :
    (ElectronicsMainBoard1V1.get_chevron_motor (ElectronicsMainBoard1V1.new true se bcfg) n).2
        = ElectronicsMainBoard1V1.new true se bcfg
    ∧ (ElectronicsMainBoard1V1.get_chevron_motor
          (ElectronicsMainBoard1V1.get_chevron_motor (ElectronicsMainBoard1V1.new true se bcfg) n).2 n).1
        = (ElectronicsMainBoard1V1.get_chevron_motor (ElectronicsMainBoard1V1.new true se bcfg) n).1
    ∧ countWrites (ElectronicsMainBoard1V1.new true se bcfg).dutyLog
        (enableTarget c).1 (enableTarget c).2 = 1 := by
  refine ⟨get_chevron_motor_state _ _, ?_, ?_⟩
  · rw [get_chevron_motor_state]
  · have hmc : (ElectronicsMainBoard1V1.new true se bcfg).motor_channels
        = [(1, .real 0 2 11 10), (2, .real 1 2 8 7), (3, .real 2 2 5 4),
           (4, .real 3 2 2 1), (5, .real 4 1 14 13), (6, .real 5 1 3 4),
           (7, .real 6 1 2 1)] := by
      cases se <;> rfl
    rw [hmc] at hc
    have hmem : c ∈ ([(1, MotorHandle.real 0 2 11 10), (2, .real 1 2 8 7), (3, .real 2 2 5 4),
           (4, .real 3 2 2 1), (5, .real 4 1 14 13), (6, .real 5 1 3 4),
           (7, .real 6 1 2 1)] : List (Int × MotorHandle)).map Prod.fst := by
      by_contra hne
      rw [lookup_eq_none_of_not_mem c _ hne] at hc
      simp at hc
    have hcases : c = 1 ∨ c = 2 ∨ c = 3 ∨ c = 4 ∨ c = 5 ∨ c = 6 ∨ c = 7 := by
      simpa using hmem
    cases se with
    | false =>
        have hlog : (ElectronicsMainBoard1V1.new true false bcfg).dutyLog
            = [⟨2, 9, 0xFFFF⟩, ⟨2, 6, 0xFFFF⟩, ⟨2, 3, 0xFFFF⟩, ⟨2, 0, 0xFFFF⟩,
               ⟨1, 12, 0xFFFF⟩, ⟨1, 5, 0xFFFF⟩, ⟨1, 0, 0xFFFF⟩] := rfl
        rw [hlog]
        rcases hcases with h | h | h | h | h | h | h <;> subst h <;> decide
    | true =>
        have hlog : (ElectronicsMainBoard1V1.new true true bcfg).dutyLog
            = [⟨2, 9, 0xFFFF⟩, ⟨2, 6, 0xFFFF⟩, ⟨2, 3, 0xFFFF⟩, ⟨2, 0, 0xFFFF⟩,
               ⟨1, 12, 0xFFFF⟩, ⟨1, 5, 0xFFFF⟩, ⟨1, 0, 0xFFFF⟩,
               ⟨1, 6, 0xFFFF⟩, ⟨1, 11, 0xFFFF⟩] := rfl
        rw [hlog]
        rcases hcases with h | h | h | h | h | h | h <;> subst h <;> decide

/-- C4 witness: the idempotence theorem at the concrete remap
`chevron_3_motor_channel = 5` on a board with motors enabled and the
stepper disabled. -/
theorem C4_motor_idempotent_witness :
    (ElectronicsMainBoard1V1.get_chevron_motor
        (ElectronicsMainBoard1V1.new true false [("chevron_3_motor_channel", 5)]) 3).2
      = ElectronicsMainBoard1V1.new true false [("chevron_3_motor_channel", 5)]
    ∧ (ElectronicsMainBoard1V1.get_chevron_motor
          (ElectronicsMainBoard1V1.get_chevron_motor
            (ElectronicsMainBoard1V1.new true false [("chevron_3_motor_channel", 5)]) 3).2 3).1
        = (ElectronicsMainBoard1V1.get_chevron_motor
            (ElectronicsMainBoard1V1.new true false [("chevron_3_motor_channel", 5)]) 3).1
    ∧ countWrites (ElectronicsMainBoard1V1.new true false [("chevron_3_motor_channel", 5)]).dutyLog
        (enableTarget 5).1 (enableTarget 5).2 = 1 :=
  C4_motor_idempotent [("chevron_3_motor_channel", 5)] false 3 5 rfl rfl

/-- C7 counterexample: a freshly constructed board (motors enabled, no
`get_chevron_motor` request made yet) already holds a constructed DC-motor
object for channel 1 and its enable-channel write (chip 2, channel 9)
already appears in the duty-cycle log, so construction is not deferred to
first access. -/
theorem C7_counterexample :
    (ElectronicsMainBoard1V1.new true false []).motor_channels.lookup 1
      = some (.real 0 2 11 10)
    ∧ countWrites (ElectronicsMainBoard1V1.new true false []).dutyLog 2 9 = 1 :=
  ⟨rfl, by decide⟩

/-- C7 (amended): motor handles are constructed eagerly during board
initialization: when `chevron_motors_enable` is set, building the
`motor_channels` dict inside `init_motor_hardware` evaluates each motor
property once, so every enable-channel duty-cycle write is already in the
log right after construction (each exactly once), and `get_chevron_motor`
performs no further construction or channel writes. -/
theorem C7_eager_construction (se : Bool) (bcfg : List (String × Int)) (n : Nat) :
    countWrites (ElectronicsMainBoard1V1.new true se bcfg).dutyLog 2 9 = 1
    ∧ countWrites (ElectronicsMainBoard1V1.new true se bcfg).dutyLog 2 6 = 1
    ∧ countWrites (ElectronicsMainBoard1V1.new true se bcfg).dutyLog 2 3 = 1
    ∧ countWrites (ElectronicsMainBoard1V1.new true se bcfg).dutyLog 2 0 = 1
    ∧ countWrites (ElectronicsMainBoard1V1.new true se bcfg).dutyLog 1 12 = 1
    ∧ countWrites (ElectronicsMainBoard1V1.new true se bcfg).dutyLog 1 5 = 1
    ∧ countWrites (ElectronicsMainBoard1V1.new true se bcfg).dutyLog 1 0 = 1
    ∧ (ElectronicsMainBoard1V1.get_chevron_motor (ElectronicsMainBoard1V1.new true se bcfg) n).2
        = ElectronicsMainBoard1V1.new true se bcfg := by
  cases se with
  | false =>
      have hlog : (ElectronicsMainBoard1V1.new true false bcfg).dutyLog
          = [⟨2, 9, 0xFFFF⟩, ⟨2, 6, 0xFFFF⟩, ⟨2, 3, 0xFFFF⟩, ⟨2, 0, 0xFFFF⟩,
             ⟨1, 12, 0xFFFF⟩, ⟨1, 5, 0xFFFF⟩, ⟨1, 0, 0xFFFF⟩] := rfl
      rw [hlog]
      exact ⟨by decide, by decide, by decide, by decide, by decide, by decide, by decide,
        get_chevron_motor_state _ _⟩
  | true =>
      have hlog : (ElectronicsMainBoard1V1.new true true bcfg).dutyLog
          = [⟨2, 9, 0xFFFF⟩, ⟨2, 6, 0xFFFF⟩, ⟨2, 3, 0xFFFF⟩, ⟨2, 0, 0xFFFF⟩,
             ⟨1, 12, 0xFFFF⟩, ⟨1, 5, 0xFFFF⟩, ⟨1, 0, 0xFFFF⟩,
             ⟨1, 6, 0xFFFF⟩, ⟨1, 11, 0xFFFF⟩] := rfl
      rw [hlog]
      exact ⟨by decide, by decide, by decide, by decide, by decide, by decide, by decide,
        get_chevron_motor_state _ _⟩

/-- C8: for a chevron with no remap entry for the requested role, both
`get_chevron_led` and `get_chevron_motor` fail with the ConfigurationError
of the config loader and return the board state unchanged (no partial
mutation of any channel state). -/
theorem C8_missing_remap (s : BoardState) (n : Nat)
    (hled : s.board_cfg.lookup ("chevron_" ++ toString n ++ "_led_channel") = none)
    (hmot : s.board_cfg.lookup ("chevron_" ++ toString n ++ "_motor_channel") = none) :
    ElectronicsMainBoard1V1.get_chevron_led s n = (.error .configurationError, s)
    ∧ ElectronicsMainBoard1V1.get_chevron_motor s n = (.error .configurationError, s) := by
  constructor
  · simp [ElectronicsMainBoard1V1.get_chevron_led, StargateConfig.get, hled]
  · simp [ElectronicsMainBoard1V1.get_chevron_motor, StargateConfig.get, hmot]

/-- C8 witness: the missing-remap theorem at chevron 1 on a board whose
remap config is empty. -/
theorem C8_missing_remap_witness :
    ElectronicsMainBoard1V1.get_chevron_led (ElectronicsMainBoard1V1.new true false []) 1
      = (.error .configurationError, ElectronicsMainBoard1V1.new true false [])
    ∧ ElectronicsMainBoard1V1.get_chevron_motor (ElectronicsMainBoard1V1.new true false []) 1
      = (.error .configurationError, ElectronicsMainBoard1V1.new true false []) :=
  C8_missing_remap (ElectronicsMainBoard1V1.new true false []) 1 rfl rfl

/-- C9: constructing the board with `stepper_motor_enable = false` installs
the `StepperSim` stand-in: `get_stepper` returns that simulated handle and
leaves the state unchanged, initialization performed no write to the
stepper enable channels PWMA (chip 1, channel 6) and PWMB (chip 1,
channel 11), and an operation on the simulated handle leaves the board
state (hence the duty-cycle log) unchanged. -/
theorem C9_sim_stepper (cme : Bool) (bcfg : List (String × Int)) :
    (ElectronicsMainBoard1V1.get_stepper (ElectronicsMainBoard1V1.new cme false bcfg)).1
      = StepperHandle.sim 7
    ∧ (ElectronicsMainBoard1V1.get_stepper (ElectronicsMainBoard1V1.new cme false bcfg)).2
      = ElectronicsMainBoard1V1.new cme false bcfg
    ∧ countWrites (ElectronicsMainBoard1V1.new cme false bcfg).dutyLog 1 6 = 0
    ∧ countWrites (ElectronicsMainBoard1V1.new cme false bcfg).dutyLog 1 11 = 0
    ∧ StepperSim.onestep (ElectronicsMainBoard1V1.new cme false bcfg)
      = ElectronicsMainBoard1V1.new cme false bcfg := by
  cases cme with
  | false =>
      have hlog : (ElectronicsMainBoard1V1.new false false bcfg).dutyLog = [] := rfl
      exact ⟨rfl, rfl, by rw [hlog]; rfl, by rw [hlog]; rfl, rfl⟩
  | true =>
      have hlog : (ElectronicsMainBoard1V1.new true false bcfg).dutyLog
          = [⟨2, 9, 0xFFFF⟩, ⟨2, 6, 0xFFFF⟩, ⟨2, 3, 0xFFFF⟩, ⟨2, 0, 0xFFFF⟩,
             ⟨1, 12, 0xFFFF⟩, ⟨1, 5, 0xFFFF⟩, ⟨1, 0, 0xFFFF⟩] := rfl
      exact ⟨rfl, rfl, by rw [hlog]; decide, by rw [hlog]; decide, rfl⟩

/-- C10: the logical chevron table of `src/chevrons.py` defines nine
chevrons keyed 1..9, but the board registers motor and LED channel dicts
only under keys 1..7; hence any remap entry resolving to a channel outside
1..7 makes `get_chevron_led` / `get_chevron_motor` fail on the channel-table
lookup (a `KeyError`), leaving the state unchanged: chevrons can only be
remapped onto those seven channels. -/
theorem C10_channel_tables :
    chevrons.map Prod.fst = [1, 2, 3, 4, 5, 6, 7, 8, 9]
    ∧ (∀ (cme se : Bool) (bcfg : List (String × Int)),
        (ElectronicsMainBoard1V1.new cme se bcfg).motor_channels.map Prod.fst
          = ([1, 2, 3, 4, 5, 6, 7] : List Int)
        ∧ (ElectronicsMainBoard1V1.new cme se bcfg).led_channels.map Prod.fst
          = ([1, 2, 3, 4, 5, 6, 7] : List Int))
    ∧ (∀ (cme se : Bool) (bcfg : List (String × Int)) (n : Nat) (c : Int),
        StargateConfig.get bcfg ("chevron_" ++ toString n ++ "_led_channel") = .ok c →
        (c < 1 ∨ 7 < c) →
        ElectronicsMainBoard1V1.get_chevron_led (ElectronicsMainBoard1V1.new cme se bcfg) n
          = (.error .keyError, ElectronicsMainBoard1V1.new cme se bcfg))
    ∧ (∀ (cme se : Bool) (bcfg : List (String × Int)) (n : Nat) (c : Int),
        StargateConfig.get bcfg ("chevron_" ++ toString n ++ "_motor_channel") = .ok c →
        (c < 1 ∨ 7 < c) →
        ElectronicsMainBoard1V1.get_chevron_motor (ElectronicsMainBoard1V1.new cme se bcfg) n
          = (.error .keyError, ElectronicsMainBoard1V1.new cme se bcfg)) := by
  refine ⟨rfl, ?_, ?_, ?_⟩
  · intro cme se bcfg
    cases cme <;> cases se <;> exact ⟨rfl, rfl⟩
  · intro cme se bcfg n c hcfg hc
    have hkeys : (ElectronicsMainBoard1V1.new cme se bcfg).led_channels.map Prod.fst
        = ([1, 2, 3, 4, 5, 6, 7] : List Int) := by
      cases cme <;> cases se <;> rfl
    have hnone : (ElectronicsMainBoard1V1.new cme se bcfg).led_channels.lookup c = none := by
      apply lookup_eq_none_of_not_mem
      rw [hkeys]
      intro hmem
      simp only [List.mem_cons, List.not_mem_nil, or_false] at hmem
      rcases hc with hlt | hgt <;> rcases hmem with h | h | h | h | h | h | h <;> omega
    have hget : StargateConfig.get (ElectronicsMainBoard1V1.new cme se bcfg).board_cfg
        ("chevron_" ++ toString n ++ "_led_channel") = .ok c := by
      have hb : (ElectronicsMainBoard1V1.new cme se bcfg).board_cfg = bcfg := by
        cases cme <;> cases se <;> rfl
      rw [hb]; exact hcfg
    simp [ElectronicsMainBoard1V1.get_chevron_led, hget, hnone]
  · intro cme se bcfg n c hcfg hc
    have hkeys : (ElectronicsMainBoard1V1.new cme se bcfg).motor_channels.map Prod.fst
        = ([1, 2, 3, 4, 5, 6, 7] : List Int) := by
      cases cme <;> cases se <;> rfl
    have hnone : (ElectronicsMainBoard1V1.new cme se bcfg).motor_channels.lookup c = none := by
      apply lookup_eq_none_of_not_mem
      rw [hkeys]
      intro hmem
      simp only [List.mem_cons, List.not_mem_nil, or_false] at hmem
      rcases hc with hlt | hgt <;> rcases hmem with h | h | h | h | h | h | h <;> omega
    have hget : StargateConfig.get (ElectronicsMainBoard1V1.new cme se bcfg).board_cfg
        ("chevron_" ++ toString n ++ "_motor_channel") = .ok c := by
      have hb : (ElectronicsMainBoard1V1.new cme se bcfg).board_cfg = bcfg := by
        cases cme <;> cases se <;> rfl
      rw [hb]; exact hcfg
    simp [ElectronicsMainBoard1V1.get_chevron_motor, hget, hnone]

/-- C10 witness: the out-of-range clauses at channel 9 for the LED role and
channel 0 for the motor role, chevron 1, on a board with both hardware
flags set. -/
theorem C10_channel_tables_witness :
    ElectronicsMainBoard1V1.get_chevron_led
        (ElectronicsMainBoard1V1.new true true [("chevron_1_led_channel", 9), ("chevron_1_motor_channel", 0)]) 1
      = (.error .keyError,
         ElectronicsMainBoard1V1.new true true [("chevron_1_led_channel", 9), ("chevron_1_motor_channel", 0)])
    ∧ ElectronicsMainBoard1V1.get_chevron_motor
        (ElectronicsMainBoard1V1.new true true [("chevron_1_led_channel", 9), ("chevron_1_motor_channel", 0)]) 1
      = (.error .keyError,
         ElectronicsMainBoard1V1.new true true [("chevron_1_led_channel", 9), ("chevron_1_motor_channel", 0)]) :=
  ⟨C10_channel_tables.2.2.1 true true [("chevron_1_led_channel", 9), ("chevron_1_motor_channel", 0)] 1 9
      rfl (by norm_num),
   C10_channel_tables.2.2.2 true true [("chevron_1_led_channel", 9), ("chevron_1_motor_channel", 0)] 1 0
      rfl (by norm_num)⟩

end Stargate
